import Mathlib

/-!
Shallow embedding of the interactive privileged-command handshake of
src/ssh_client.py (class SSHClient): the two polling loops
`_wait_for_shell_password_prompt` and `_wait_for_shell_password_return_prompt`,
and the `reboot` / `shutdown` methods that drive them, together with the
command constants of src/enums.py (LinuxCommands).

Modelling decisions, all read off the source:
- The shell channel is modelled as a script of poll events.  Each iteration of
  a polling loop consumes one event: `notReady` models `recv_ready()` being
  false, `chunk s` models `recv_ready()` true and `recv(BYTES_TO_READ)`
  returning bytes whose Python `str()` rendering is the text `s` (that
  rendering contains no newline characters, since `str` of a bytes value
  escapes them), and `transportFail m` models the paramiko channel raising a
  transport-level exception from the poll (connection reset, broken pipe).
- Time is discretised in poll ticks of PROMPT_POLL_INTERVAL = 0.5 s: every
  loop iteration ends with `time.sleep(0.5)` except the iteration that exits
  the loop, so a loop bounded by T seconds runs at most T / 0.5 iterations.
  `_wait_for_shell_password_prompt` therefore has 20 iterations of fuel and
  `_wait_for_shell_password_return_prompt` has 10.
- Python exceptions are the inductive `SSHError`: `userWarning msg` is
  `raise UserWarning(msg)`, `transportError msg` is a propagated channel
  exception (the source has no try/except around the polling, so these
  propagate unchanged).
- `re.match` with the pattern dot-star password dot-star succeeds exactly when
  the text contains the substring "password" before its first newline, because
  the dot of a Python regex does not match a newline and the match is
  anchored at the start with a leading dot-star.  Phase 1 applies this to
  `str(recv(...))` directly; phase 2 applies it to `str(recv(...)).lower()`.
-/

namespace SSHClientSpec

/-- `containsSub needle hay` decides whether `needle` occurs as a contiguous
sublist of `hay`. -/
def containsSub (needle : List Char) : List Char → Bool
  | [] => needle.isEmpty
  | c :: rest => needle.isPrefixOf (c :: rest) || containsSub needle rest

/-- Substring test on strings, used to give the semantics of the Python regex
match in the source. -/
def strContains (needle hay : String) : Bool :=
  containsSub needle.toList hay.toList

/-- The characters before the first newline. -/
def takeUntilNewline : List Char → List Char
  | [] => []
  | c :: rest => if c = '\n' then [] else c :: takeUntilNewline rest

/-- The part of a string before its first newline: the region a Python regex
dot can scan from the start of the string. -/
def firstLine (s : String) : String :=
  String.mk (takeUntilNewline s.toList)

/-- Semantics of the Python test `re.match` with pattern dot-star password
dot-star applied to a text `s`: true exactly when `s` contains the substring
"password" before its first newline.  This is the test of
`_wait_for_shell_password_prompt` (applied to `str(recv(...))` as is) and of
`_wait_for_shell_password_return_prompt` (applied to the lowered text). -/
def reMatchPassword (s : String) : Bool :=
  strContains "password" (firstLine s)

/-- `str.lower()` of Python, for the ASCII texts involved here. -/
def pyLower (s : String) : String :=
  String.mk (s.toList.map Char.toLower)

/-- `PROMPT_POLL_INTERVAL = 0.5` seconds, kept in milliseconds. -/
def PROMPT_POLL_INTERVAL_MS : Nat := 500

/-- `PROMPT_POLL_TIMEOUT = 10` seconds. -/
def PROMPT_POLL_TIMEOUT : Nat := 10

/-- `WRONG_PASSWORD_TIMEOUT = 5` seconds. -/
def WRONG_PASSWORD_TIMEOUT : Nat := 5

/-- `BYTES_TO_READ = 1024`: the bound passed to every `recv` call. -/
def BYTES_TO_READ : Nat := 1024

/-- Number of poll iterations of phase 1: the 10 second window divided by the
0.5 second sleep performed at the end of every non-exiting iteration. -/
def promptTicks : Nat := PROMPT_POLL_TIMEOUT * 1000 / PROMPT_POLL_INTERVAL_MS

/-- Number of poll iterations of phase 2: the 5 second window divided by the
0.5 second sleep. -/
def wrongPwdTicks : Nat := WRONG_PASSWORD_TIMEOUT * 1000 / PROMPT_POLL_INTERVAL_MS

/-- One poll observation of the shell channel. -/
inductive PollEvent where
  /-- `recv_ready()` returned false. -/
  | notReady : PollEvent
  /-- `recv_ready()` returned true and `str(recv(BYTES_TO_READ))` is `s`. -/
  | chunk (s : String) : PollEvent
  /-- the channel raised a transport-level exception from the poll. -/
  | transportFail (msg : String) : PollEvent
deriving DecidableEq

/-- The exceptions that can escape the handshake. -/
inductive SSHError where
  /-- `raise UserWarning(msg)` in the source. -/
  | userWarning (msg : String) : SSHError
  /-- a propagated transport exception of the underlying channel. -/
  | transportError (msg : String) : SSHError
deriving DecidableEq

/-- Result of `_wait_for_shell_password_prompt`: how the loop exited, and the
poll events the channel still holds. -/
structure Phase1Out where
  outcome : Except SSHError Unit
  rest : List PollEvent

/-- Result of `_wait_for_shell_password_return_prompt`: how it exited, the
timeout in seconds passed to `status_event.wait` when that wait executed
(none when the method raised before reaching it), and the remaining events. -/
structure Phase2Out where
  outcome : Except SSHError Unit
  statusWait : Option Nat
  rest : List PollEvent

/-- `SSHClient._wait_for_shell_password_prompt`, with the remaining poll
ticks as fuel.  Each iteration: if the channel is not ready, sleep and retry;
if a received chunk fails the password test, sleep and retry; if it passes,
break out of the loop; when the window elapses, the while-else clause raises
`UserWarning` with message "No password prompt!".  A transport failure of the
channel propagates. -/
def waitForShellPasswordPrompt : Nat → List PollEvent → Phase1Out
  | 0, events => ⟨Except.error (SSHError.userWarning "No password prompt!"), events⟩
  | fuel + 1, [] => waitForShellPasswordPrompt fuel []
  | fuel + 1, e :: rest =>
      match e with
      | PollEvent.notReady => waitForShellPasswordPrompt fuel rest
      | PollEvent.transportFail m => ⟨Except.error (SSHError.transportError m), rest⟩
      | PollEvent.chunk s =>
          if reMatchPassword s then ⟨Except.ok (), rest⟩
          else waitForShellPasswordPrompt fuel rest

/-- `SSHClient._wait_for_shell_password_return_prompt`, with the remaining
poll ticks as fuel.  Each iteration: if the channel is not ready, sleep and
continue; if a received chunk passes the password test on its lowered text,
raise `UserWarning` with message "Incorrect sudo password!" immediately;
otherwise sleep and continue.  When the window elapses without a second
prompt the method calls `status_event.wait(timeout=PROMPT_POLL_TIMEOUT)` and
returns normally. -/
def waitForShellPasswordReturnPrompt : Nat → List PollEvent → Phase2Out
  | 0, events => ⟨Except.ok (), some PROMPT_POLL_TIMEOUT, events⟩
  | fuel + 1, [] => waitForShellPasswordReturnPrompt fuel []
  | fuel + 1, e :: rest =>
      match e with
      | PollEvent.notReady => waitForShellPasswordReturnPrompt fuel rest
      | PollEvent.transportFail m =>
          ⟨Except.error (SSHError.transportError m), none, rest⟩
      | PollEvent.chunk s =>
          if reMatchPassword (pyLower s) then
            ⟨Except.error (SSHError.userWarning "Incorrect sudo password!"), none, rest⟩
          else waitForShellPasswordReturnPrompt fuel rest

/-- `LinuxCommands.REBOOT.value` of src/enums.py. -/
def LinuxCommands_REBOOT : String := "sudo reboot"

/-- `LinuxCommands.SHUTDOWN.value` of src/enums.py. -/
def LinuxCommands_SHUTDOWN : String := "sudo shutdown -h now"

/-- The interactive shell channel: its pending poll events and whether it has
been closed. -/
structure Channel where
  events : List PollEvent
  closed : Bool

/-- Closing the session, performed only by `SSHClient.__exit__`. -/
def closeChannel (c : Channel) : Channel :=
  { c with closed := true }

/-- Observable result of one `reboot` or `shutdown` call: the exception flow,
the byte strings written to the channel by `shell.send`, in order, and the
timeout of the `status_event.wait` call when it executed. -/
structure CallResult where
  outcome : Except SSHError Unit
  writes : List String
  statusWait : Option Nat

/-- The common body of `SSHClient.reboot` and `SSHClient.shutdown`:
send the command plus newline, wait for the password prompt, send the
password plus newline, wait for the post-password window.  A `UserWarning`
raised by a phase propagates out of the method (there is no handler), so on a
phase 1 failure the password send never executes. -/
def runPrivilegedCommand (cmd pwd : String) (c : Channel) : CallResult × Channel :=
  let p1 := waitForShellPasswordPrompt promptTicks c.events
  match p1.outcome with
  | Except.error e =>
      (⟨Except.error e, [cmd ++ "\n"], none⟩, { c with events := p1.rest })
  | Except.ok _ =>
      let p2 := waitForShellPasswordReturnPrompt wrongPwdTicks p1.rest
      (⟨p2.outcome, [cmd ++ "\n", pwd ++ "\n"], p2.statusWait⟩,
       { c with events := p2.rest })

/-- `SSHClient.reboot`. -/
def reboot (pwd : String) (c : Channel) : CallResult × Channel :=
  runPrivilegedCommand LinuxCommands_REBOOT pwd c

/-- `SSHClient.shutdown`. -/
def shutdown (pwd : String) (c : Channel) : CallResult × Channel :=
  runPrivilegedCommand LinuxCommands_SHUTDOWN pwd c

/-- A phase 1 poll event on which the loop keeps waiting: the channel is not
ready, or the received chunk fails the (case-sensitive) password test. -/
def benignNoMatch : PollEvent → Bool
  | PollEvent.notReady => true
  | PollEvent.chunk s => !reMatchPassword s
  | PollEvent.transportFail _ => false

/-- A phase 2 poll event on which the loop keeps waiting: the channel is not
ready, or the lowered text of the received chunk fails the password test. -/
def benignNoMatchLower : PollEvent → Bool
  | PollEvent.notReady => true
  | PollEvent.chunk s => !reMatchPassword (pyLower s)
  | PollEvent.transportFail _ => false

lemma phase1_timeout_of_benign :
    ∀ (fuel : Nat) (events : List PollEvent),
      (∀ e ∈ events.take fuel, benignNoMatch e = true) →
      (waitForShellPasswordPrompt fuel events).outcome
        = Except.error (SSHError.userWarning "No password prompt!") := by
  intro fuel
  induction fuel with
  | zero => intro events _; rfl
  | succ n ih =>
    intro events h
    cases events with
    | nil => exact ih [] (by intro e he; simp at he)
    | cons e rest =>
        have he : benignNoMatch e = true := h e (by simp)
        have hrest : ∀ x ∈ rest.take n, benignNoMatch x = true := by
          intro x hx
          exact h x (by simp [List.take_succ_cons]; right; exact hx)
        cases e with
        | notReady => simpa [waitForShellPasswordPrompt] using ih rest hrest
        | transportFail m => simp [benignNoMatch] at he
        | chunk s =>
            have hs : reMatchPassword s = false := by
              simpa [benignNoMatch] using he
            simpa [waitForShellPasswordPrompt, hs] using ih rest hrest

lemma phase1_match_of_chunk :
    ∀ (pre : List PollEvent) (fuel : Nat), pre.length < fuel →
      (∀ e ∈ pre, benignNoMatch e = true) →
      ∀ (s : String) (post : List PollEvent), reMatchPassword s = true →
      waitForShellPasswordPrompt fuel (pre ++ PollEvent.chunk s :: post)
        = ⟨Except.ok (), post⟩ := by
  intro pre
  induction pre with
  | nil =>
      intro fuel hf _ s post hs
      cases fuel with
      | zero => simp at hf
      | succ n => simp [waitForShellPasswordPrompt, hs]
  | cons e pre ih =>
      intro fuel hf hb s post hs
      cases fuel with
      | zero => simp at hf
      | succ n =>
        have he : benignNoMatch e = true := hb e (List.mem_cons_self e pre)
        have hb2 : ∀ x ∈ pre, benignNoMatch x = true :=
          fun x hx => hb x (List.mem_cons_of_mem _ hx)
        have hn : pre.length < n := by
          simp at hf; omega
        cases e with
        | notReady =>
            simpa [waitForShellPasswordPrompt] using ih n hn hb2 s post hs
        | transportFail m => simp [benignNoMatch] at he
        | chunk t =>
            have ht : reMatchPassword t = false := by
              simpa [benignNoMatch] using he
            simpa [waitForShellPasswordPrompt, ht] using ih n hn hb2 s post hs

lemma phase1_transport_of_fail :
    ∀ (pre : List PollEvent) (fuel : Nat), pre.length < fuel →
      (∀ e ∈ pre, benignNoMatch e = true) →
      ∀ (m : String) (post : List PollEvent),
      waitForShellPasswordPrompt fuel (pre ++ PollEvent.transportFail m :: post)
        = ⟨Except.error (SSHError.transportError m), post⟩ := by
  intro pre
  induction pre with
  | nil =>
      intro fuel hf _ m post
      cases fuel with
      | zero => simp at hf
      | succ n => simp [waitForShellPasswordPrompt]
  | cons e pre ih =>
      intro fuel hf hb m post
      cases fuel with
      | zero => simp at hf
      | succ n =>
        have he : benignNoMatch e = true := hb e (List.mem_cons_self e pre)
        have hb2 : ∀ x ∈ pre, benignNoMatch x = true :=
          fun x hx => hb x (List.mem_cons_of_mem _ hx)
        have hn : pre.length < n := by
          simp at hf; omega
        cases e with
        | notReady =>
            simpa [waitForShellPasswordPrompt] using ih n hn hb2 m post
        | transportFail k => simp [benignNoMatch] at he
        | chunk t =>
            have ht : reMatchPassword t = false := by
              simpa [benignNoMatch] using he
            simpa [waitForShellPasswordPrompt, ht] using ih n hn hb2 m post

lemma phase2_accept_of_benign :
    ∀ (fuel : Nat) (events : List PollEvent),
      (∀ e ∈ events.take fuel, benignNoMatchLower e = true) →
      (waitForShellPasswordReturnPrompt fuel events).outcome = Except.ok () ∧
      (waitForShellPasswordReturnPrompt fuel events).statusWait
        = some PROMPT_POLL_TIMEOUT := by
  intro fuel
  induction fuel with
  | zero => intro events _; exact ⟨rfl, rfl⟩
  | succ n ih =>
    intro events h
    cases events with
    | nil => exact ih [] (by intro e he; simp at he)
    | cons e rest =>
        have he : benignNoMatchLower e = true := h e (by simp)
        have hrest : ∀ x ∈ rest.take n, benignNoMatchLower x = true := by
          intro x hx
          exact h x (by simp [List.take_succ_cons]; right; exact hx)
        cases e with
        | notReady => simpa [waitForShellPasswordReturnPrompt] using ih rest hrest
        | transportFail m => simp [benignNoMatchLower] at he
        | chunk s =>
            have hs : reMatchPassword (pyLower s) = false := by
              simpa [benignNoMatchLower] using he
            simpa [waitForShellPasswordReturnPrompt, hs] using ih rest hrest

lemma phase2_reject_of_chunk :
    ∀ (pre : List PollEvent) (fuel : Nat), pre.length < fuel →
      (∀ e ∈ pre, benignNoMatchLower e = true) →
      ∀ (s : String) (post : List PollEvent), reMatchPassword (pyLower s) = true →
      waitForShellPasswordReturnPrompt fuel (pre ++ PollEvent.chunk s :: post)
        = ⟨Except.error (SSHError.userWarning "Incorrect sudo password!"), none, post⟩ := by
  intro pre
  induction pre with
  | nil =>
      intro fuel hf _ s post hs
      cases fuel with
      | zero => simp at hf
      | succ n => simp [waitForShellPasswordReturnPrompt, hs]
  | cons e pre ih =>
      intro fuel hf hb s post hs
      cases fuel with
      | zero => simp at hf
      | succ n =>
        have he : benignNoMatchLower e = true := hb e (List.mem_cons_self e pre)
        have hb2 : ∀ x ∈ pre, benignNoMatchLower x = true :=
          fun x hx => hb x (List.mem_cons_of_mem _ hx)
        have hn : pre.length < n := by
          simp at hf; omega
        cases e with
        | notReady =>
            simpa [waitForShellPasswordReturnPrompt] using ih n hn hb2 s post hs
        | transportFail m => simp [benignNoMatchLower] at he
        | chunk t =>
            have ht : reMatchPassword (pyLower t) = false := by
              simpa [benignNoMatchLower] using he
            simpa [waitForShellPasswordReturnPrompt, ht] using ih n hn hb2 s post hs

lemma phase2_statusWait_of_reject :
    ∀ (fuel : Nat) (events : List PollEvent),
      (waitForShellPasswordReturnPrompt fuel events).outcome
          = Except.error (SSHError.userWarning "Incorrect sudo password!") →
      (waitForShellPasswordReturnPrompt fuel events).statusWait = none := by
  intro fuel
  induction fuel with
  | zero => intro events h; simp [waitForShellPasswordReturnPrompt] at h
  | succ n ih =>
    intro events h
    cases events with
    | nil => exact ih [] (by simpa [waitForShellPasswordReturnPrompt] using h)
    | cons e rest =>
        cases e with
        | notReady =>
            simpa [waitForShellPasswordReturnPrompt] using
              ih rest (by simpa [waitForShellPasswordReturnPrompt] using h)
        | transportFail m => simp [waitForShellPasswordReturnPrompt] at h ⊢
        | chunk s =>
            by_cases hs : reMatchPassword (pyLower s) = true
            · simp [waitForShellPasswordReturnPrompt, hs]
            · have hs2 : reMatchPassword (pyLower s) = false := by
                simpa using hs
              simpa [waitForShellPasswordReturnPrompt, hs2] using
                ih rest (by simpa [waitForShellPasswordReturnPrompt, hs2] using h)

lemma phase2_statusWait_of_ok :
    ∀ (fuel : Nat) (events : List PollEvent),
      (waitForShellPasswordReturnPrompt fuel events).outcome = Except.ok () →
      (waitForShellPasswordReturnPrompt fuel events).statusWait
        = some PROMPT_POLL_TIMEOUT := by
  intro fuel
  induction fuel with
  | zero => intro events _; rfl
  | succ n ih =>
    intro events h
    cases events with
    | nil => exact ih [] (by simpa [waitForShellPasswordReturnPrompt] using h)
    | cons e rest =>
        cases e with
        | notReady =>
            simpa [waitForShellPasswordReturnPrompt] using
              ih rest (by simpa [waitForShellPasswordReturnPrompt] using h)
        | transportFail m => simp [waitForShellPasswordReturnPrompt] at h
        | chunk s =>
            by_cases hs : reMatchPassword (pyLower s) = true
            · simp [waitForShellPasswordReturnPrompt, hs] at h
            · have hs2 : reMatchPassword (pyLower s) = false := by
                simpa using hs
              simpa [waitForShellPasswordReturnPrompt, hs2] using
                ih rest (by simpa [waitForShellPasswordReturnPrompt, hs2] using h)

lemma writes_shape (cmd pwd : String) (c : Channel) :
    (runPrivilegedCommand cmd pwd c).1.writes = [cmd ++ "\n"] ∨
    (runPrivilegedCommand cmd pwd c).1.writes = [cmd ++ "\n", pwd ++ "\n"] := by
  cases h : (waitForShellPasswordPrompt promptTicks c.events).outcome with
  | error e => left; simp [runPrivilegedCommand, h]
  | ok u => right; simp [runPrivilegedCommand, h]

lemma writes_of_ok (cmd pwd : String) (c : Channel)
    (h : (runPrivilegedCommand cmd pwd c).1.outcome = Except.ok ()) :
    (runPrivilegedCommand cmd pwd c).1.writes = [cmd ++ "\n", pwd ++ "\n"] := by
  cases h1 : (waitForShellPasswordPrompt promptTicks c.events).outcome with
  | error e => simp [runPrivilegedCommand, h1] at h
  | ok u => simp [runPrivilegedCommand, h1]

lemma closed_frame (cmd pwd : String) (c : Channel) :
    ((runPrivilegedCommand cmd pwd c).2).closed = c.closed := by
  cases h : (waitForShellPasswordPrompt promptTicks c.events).outcome with
  | error e => simp [runPrivilegedCommand, h]
  | ok u => simp [runPrivilegedCommand, h]

/-- Claim C1, counterexample: the claim states the phase 1 prompt test is
case-insensitive and that a chunk containing "Password:" (capital P) advances
the handshake to phase 2.  In the source the phase 1 test is applied to the
received text without lowering, so a chunk whose only occurrence is
"Password:" never matches: the loop times out with the no-password-prompt
error instead of advancing, even though the chunk contains "password"
case-insensitively. -/
theorem C1_counterexample :
    reMatchPassword (pyLower "Password:") = true ∧
    (waitForShellPasswordPrompt promptTicks [PollEvent.chunk "Password:"]).outcome
      = Except.error (SSHError.userWarning "No password prompt!") :=
  ⟨by decide, rfl⟩

/-- Claim C1, amended: in phase 1, a received chunk advances the handshake to
phase 2 exactly when its text contains the substring "password" in lower
case, compared case-sensitively; a chunk that fails this test is discarded
and the loop keeps polling. -/
theorem C1_phase1_match_case_sensitive (s : String) (rest : List PollEvent) (fuel : Nat) :
    (reMatchPassword s = true →
      waitForShellPasswordPrompt (fuel + 1) (PollEvent.chunk s :: rest)
        = ⟨Except.ok (), rest⟩) ∧
    (reMatchPassword s = false →
      waitForShellPasswordPrompt (fuel + 1) (PollEvent.chunk s :: rest)
        = waitForShellPasswordPrompt fuel rest) := by
  constructor <;> intro h <;> simp [waitForShellPasswordPrompt, h]

/-- Witness for C1: a chunk with a lower-case "password" advances phase 1
immediately. -/
theorem C1_phase1_match_case_sensitive_witness :
    waitForShellPasswordPrompt 20 [PollEvent.chunk "sudo password for user:"]
      = ⟨Except.ok (), []⟩ :=
  (C1_phase1_match_case_sensitive "sudo password for user:" [] 19).1 (by decide)

/-- Claim C2: once phase 1 has matched and the password was sent, a chunk
whose lowered text contains "password", read within the post-password window
(after at most wrongPwdTicks - 1 earlier benign polls), makes the call raise
the incorrect-password UserWarning; the password was written exactly once
(the writes are just the command line and one password line) and the
status wait is skipped, so no retry with the same password happens. -/
theorem C2_password_rejected (pwd p s : String) (pre post : List PollEvent) (cl : Bool)
    (hp : reMatchPassword p = true)
    (hpre : ∀ e ∈ pre, benignNoMatchLower e = true)
    (hlen : pre.length < wrongPwdTicks)
    (hs : reMatchPassword (pyLower s) = true) :
    (reboot pwd { events := PollEvent.chunk p :: (pre ++ PollEvent.chunk s :: post),
                  closed := cl }).1
      = ⟨Except.error (SSHError.userWarning "Incorrect sudo password!"),
         [LinuxCommands_REBOOT ++ "\n", pwd ++ "\n"], none⟩ := by
  have h1 : waitForShellPasswordPrompt promptTicks
      (PollEvent.chunk p :: (pre ++ PollEvent.chunk s :: post))
      = ⟨Except.ok (), pre ++ PollEvent.chunk s :: post⟩ := by
    simpa using
      phase1_match_of_chunk [] promptTicks (by decide) (by intro e he; simp at he)
        p (pre ++ PollEvent.chunk s :: post) hp
  have h2 := phase2_reject_of_chunk pre wrongPwdTicks hlen hpre s post hs
  simp [reboot, runPrivilegedCommand, h1, h2]

/-- Witness for C2: the shell prompts, the password is sent, and a second
prompt ("Sorry, try again. Password:") arrives one poll later. -/
theorem C2_password_rejected_witness :
    (reboot "pw" { events := [PollEvent.chunk "x password for u:", PollEvent.notReady,
                              PollEvent.chunk "Sorry, try again. Password:"],
                   closed := false }).1
      = ⟨Except.error (SSHError.userWarning "Incorrect sudo password!"),
         [LinuxCommands_REBOOT ++ "\n", "pw" ++ "\n"], none⟩ :=
  C2_password_rejected "pw" "x password for u:" "Sorry, try again. Password:"
    [PollEvent.notReady] [] false (by decide) (by decide) (by decide) (by decide)

/-- Claim C3: when every poll of the phase 1 window finds the channel not
ready, both reboot and shutdown raise the no-password-prompt UserWarning and
write only the command line, never the password. -/
theorem C3_prompt_timeout (pwd : String) (events : List PollEvent) (cl : Bool)
    (h : ∀ e ∈ events.take promptTicks, e = PollEvent.notReady) :
    (reboot pwd { events := events, closed := cl }).1.outcome
        = Except.error (SSHError.userWarning "No password prompt!") ∧
    (reboot pwd { events := events, closed := cl }).1.writes
        = [LinuxCommands_REBOOT ++ "\n"] ∧
    (shutdown pwd { events := events, closed := cl }).1.outcome
        = Except.error (SSHError.userWarning "No password prompt!") ∧
    (shutdown pwd { events := events, closed := cl }).1.writes
        = [LinuxCommands_SHUTDOWN ++ "\n"] := by
  have hb : ∀ e ∈ events.take promptTicks, benignNoMatch e = true := by
    intro e he
    rw [h e he]
    rfl
  have hout := phase1_timeout_of_benign promptTicks events hb
  refine ⟨?_, ?_, ?_, ?_⟩ <;> simp [reboot, shutdown, runPrivilegedCommand, hout]

/-- Witness for C3: a channel that stays silent for three polls and holds
nothing else. -/
theorem C3_prompt_timeout_witness :
    (reboot "pw" { events := [PollEvent.notReady, PollEvent.notReady, PollEvent.notReady],
                   closed := false }).1.outcome
        = Except.error (SSHError.userWarning "No password prompt!") ∧
    (reboot "pw" { events := [PollEvent.notReady, PollEvent.notReady, PollEvent.notReady],
                   closed := false }).1.writes
        = [LinuxCommands_REBOOT ++ "\n"] ∧
    (shutdown "pw" { events := [PollEvent.notReady, PollEvent.notReady, PollEvent.notReady],
                     closed := false }).1.outcome
        = Except.error (SSHError.userWarning "No password prompt!") ∧
    (shutdown "pw" { events := [PollEvent.notReady, PollEvent.notReady, PollEvent.notReady],
                     closed := false }).1.writes
        = [LinuxCommands_SHUTDOWN ++ "\n"] :=
  C3_prompt_timeout "pw" [PollEvent.notReady, PollEvent.notReady, PollEvent.notReady]
    false (by decide)

/-- Claim C4: when no chunk read within the post-password window contains
"password" (lowered), phase 2 returns normally, and it does so after calling
the status-event wait bounded by PROMPT_POLL_TIMEOUT, the prompt-wait
timeout. -/
theorem C4_password_accepted (events : List PollEvent)
    (h : ∀ e ∈ events.take wrongPwdTicks, benignNoMatchLower e = true) :
    (waitForShellPasswordReturnPrompt wrongPwdTicks events).outcome = Except.ok () ∧
    (waitForShellPasswordReturnPrompt wrongPwdTicks events).statusWait
        = some PROMPT_POLL_TIMEOUT :=
  phase2_accept_of_benign wrongPwdTicks events h

/-- Witness for C4: nothing but silence and an unrelated chunk after the
password was sent. -/
theorem C4_password_accepted_witness :
    (waitForShellPasswordReturnPrompt wrongPwdTicks
        [PollEvent.notReady, PollEvent.chunk "rebooting now"]).outcome = Except.ok () ∧
    (waitForShellPasswordReturnPrompt wrongPwdTicks
        [PollEvent.notReady, PollEvent.chunk "rebooting now"]).statusWait
        = some PROMPT_POLL_TIMEOUT :=
  C4_password_accepted [PollEvent.notReady, PollEvent.chunk "rebooting now"] (by decide)

/-- Claim C5: when the channel produces a matching prompt chunk within the
phase 1 window (after only benign polls), reboot and shutdown write exactly
the command line followed by one password line, so the password is sent
exactly once in the whole call. -/
theorem C5_password_sent_once (pwd s : String) (pre post : List PollEvent) (cl : Bool)
    (hpre : ∀ e ∈ pre, benignNoMatch e = true)
    (hlen : pre.length < promptTicks)
    (hs : reMatchPassword s = true) :
    (reboot pwd { events := pre ++ PollEvent.chunk s :: post, closed := cl }).1.writes
        = [LinuxCommands_REBOOT ++ "\n", pwd ++ "\n"] ∧
    (shutdown pwd { events := pre ++ PollEvent.chunk s :: post, closed := cl }).1.writes
        = [LinuxCommands_SHUTDOWN ++ "\n", pwd ++ "\n"] := by
  have h1 := phase1_match_of_chunk pre promptTicks hlen hpre s post hs
  constructor <;> simp [reboot, shutdown, runPrivilegedCommand, h1]

/-- Witness for C5: the prompt arrives on the second poll. -/
theorem C5_password_sent_once_witness :
    (reboot "pw" { events := [PollEvent.notReady, PollEvent.chunk "x password for u:"],
                   closed := false }).1.writes
        = [LinuxCommands_REBOOT ++ "\n", "pw" ++ "\n"] ∧
    (shutdown "pw" { events := [PollEvent.notReady, PollEvent.chunk "x password for u:"],
                     closed := false }).1.writes
        = [LinuxCommands_SHUTDOWN ++ "\n", "pw" ++ "\n"] :=
  C5_password_sent_once "pw" "x password for u:" [PollEvent.notReady] [] false
    (by decide) (by decide) (by decide)

/-- Claim C6: the three failure outcomes are mutually distinct values of
SSHError — the prompt-timeout UserWarning, the incorrect-password
UserWarning, and a transport error — and a transport failure hit while
polling in phase 1 surfaces as the transport error, never as the
prompt-timeout warning. -/
theorem C6_distinct_outcomes :
    (SSHError.userWarning "No password prompt!"
        ≠ SSHError.userWarning "Incorrect sudo password!") ∧
    (∀ m s, SSHError.transportError m ≠ SSHError.userWarning s) ∧
    (∀ (pwd m : String) (pre post : List PollEvent) (cl : Bool),
      (∀ e ∈ pre, benignNoMatch e = true) → pre.length < promptTicks →
      (reboot pwd { events := pre ++ PollEvent.transportFail m :: post,
                    closed := cl }).1.outcome
        = Except.error (SSHError.transportError m)) := by
  refine ⟨by decide, fun m s h => SSHError.noConfusion h, ?_⟩
  intro pwd m pre post cl hpre hlen
  have h1 := phase1_transport_of_fail pre promptTicks hlen hpre m post
  simp [reboot, runPrivilegedCommand, h1]

/-- Witness for C6: a connection drop on the second poll of phase 1. -/
theorem C6_distinct_outcomes_witness :
    (reboot "pw" { events := [PollEvent.notReady, PollEvent.transportFail "socket closed"],
                   closed := false }).1.outcome
      = Except.error (SSHError.transportError "socket closed") :=
  C6_distinct_outcomes.2.2 "pw" "socket closed" [PollEvent.notReady] [] false
    (by decide) (by decide)

/-- Claim C7: every reboot call writes the line "sudo reboot" plus newline
first and at most one further line, the password plus newline; every
shutdown call writes "sudo shutdown -h now" plus newline and at most the
password line after it; on a call that returns success both lines were
written, in that order and nothing else. -/
theorem C7_outbound_writes (pwd : String) (c : Channel) :
    LinuxCommands_REBOOT = "sudo reboot" ∧
    LinuxCommands_SHUTDOWN = "sudo shutdown -h now" ∧
    ((reboot pwd c).1.writes = [LinuxCommands_REBOOT ++ "\n"] ∨
     (reboot pwd c).1.writes = [LinuxCommands_REBOOT ++ "\n", pwd ++ "\n"]) ∧
    ((reboot pwd c).1.outcome = Except.ok () →
     (reboot pwd c).1.writes = [LinuxCommands_REBOOT ++ "\n", pwd ++ "\n"]) ∧
    ((shutdown pwd c).1.writes = [LinuxCommands_SHUTDOWN ++ "\n"] ∨
     (shutdown pwd c).1.writes = [LinuxCommands_SHUTDOWN ++ "\n", pwd ++ "\n"]) ∧
    ((shutdown pwd c).1.outcome = Except.ok () →
     (shutdown pwd c).1.writes = [LinuxCommands_SHUTDOWN ++ "\n", pwd ++ "\n"]) :=
  ⟨rfl, rfl,
   writes_shape LinuxCommands_REBOOT pwd c,
   fun h => writes_of_ok LinuxCommands_REBOOT pwd c h,
   writes_shape LinuxCommands_SHUTDOWN pwd c,
   fun h => writes_of_ok LinuxCommands_SHUTDOWN pwd c h⟩

/-- Witness for C7: a successful reboot writes both lines. -/
theorem C7_outbound_writes_witness :
    (reboot "pw" { events := [PollEvent.chunk "x password for u:"], closed := false }).1.writes
      = [LinuxCommands_REBOOT ++ "\n", "pw" ++ "\n"] :=
  (C7_outbound_writes "pw" { events := [PollEvent.chunk "x password for u:"],
                             closed := false }).2.2.2.1 rfl

/-- Claim C8: neither reboot nor shutdown ever changes whether the channel is
closed — only closeChannel, the model of the context-manager exit, does. -/
theorem C8_never_closes (pwd : String) (c : Channel) :
    ((reboot pwd c).2).closed = c.closed ∧ ((shutdown pwd c).2).closed = c.closed :=
  ⟨closed_frame LinuxCommands_REBOOT pwd c, closed_frame LinuxCommands_SHUTDOWN pwd c⟩

/-- Claim C9: phase 1 tests each received chunk in isolation, so a prompt
split across two consecutive chunks — neither matching alone, though their
concatenation contains "password" — is never detected and the call times out
with the no-password-prompt warning. -/
theorem C9_split_prompt (pwd s1 s2 : String) (cl : Bool)
    (h1 : reMatchPassword s1 = false) (h2 : reMatchPassword s2 = false)
    (_hjoin : reMatchPassword (s1 ++ s2) = true) :
    (reboot pwd { events := [PollEvent.chunk s1, PollEvent.chunk s2],
                  closed := cl }).1.outcome
      = Except.error (SSHError.userWarning "No password prompt!") := by
  have hall : ∀ e ∈ [PollEvent.chunk s1, PollEvent.chunk s2], benignNoMatch e = true := by
    intro e he
    simp at he
    rcases he with rfl | rfl <;> simp [benignNoMatch, h1, h2]
  have hb : ∀ e ∈ ([PollEvent.chunk s1, PollEvent.chunk s2]).take promptTicks,
      benignNoMatch e = true :=
    fun e he => hall e (List.take_subset _ _ he)
  have hout := phase1_timeout_of_benign promptTicks _ hb
  simp [reboot, runPrivilegedCommand, hout]

/-- Witness for C9: the prompt text arrives as "pass" then "word:". -/
theorem C9_split_prompt_witness :
    (reboot "pw" { events := [PollEvent.chunk "pass", PollEvent.chunk "word:"],
                   closed := false }).1.outcome
      = Except.error (SSHError.userWarning "No password prompt!") :=
  C9_split_prompt "pw" "pass" "word:" false (by decide) (by decide) (by decide)

/-- Claim C10: whenever phase 2 exits with the incorrect-password warning it
does so straight from the polling loop, without the status-event wait; the
wait (bounded by PROMPT_POLL_TIMEOUT) runs exactly on the accepted path,
where phase 2 returns normally. -/
theorem C10_reject_skips_status_wait :
    (∀ (fuel : Nat) (events : List PollEvent),
      (waitForShellPasswordReturnPrompt fuel events).outcome
          = Except.error (SSHError.userWarning "Incorrect sudo password!") →
      (waitForShellPasswordReturnPrompt fuel events).statusWait = none) ∧
    (∀ (fuel : Nat) (events : List PollEvent),
      (waitForShellPasswordReturnPrompt fuel events).outcome = Except.ok () →
      (waitForShellPasswordReturnPrompt fuel events).statusWait
        = some PROMPT_POLL_TIMEOUT) :=
  ⟨phase2_statusWait_of_reject, phase2_statusWait_of_ok⟩

/-- Witness for C10: a re-prompt on the first phase 2 poll skips the status
wait. -/
theorem C10_reject_skips_status_wait_witness :
    (waitForShellPasswordReturnPrompt 1 [PollEvent.chunk "Password:"]).statusWait = none :=
  C10_reject_skips_status_wait.1 1 [PollEvent.chunk "Password:"] rfl

end SSHClientSpec
